import Mathlib

/-!
Verification of the Picha client (a React/TypeScript NFT-minting front end)
against its natural-language specification.

The development shallowly embeds the state and event handlers of
`src/pages/Index.tsx` and `src/components/ScarcityIndicator.tsx`:

* JavaScript numbers that only ever hold integers are modelled as `Int`
  (counts and slot numbers) — no arithmetic in the audited code paths uses
  fractional values;
* optional record fields are `Option`; the numeric fields `remaining_slots`
  and `minted_count` of `ScarcityInfo`, which every audited code path reads
  and writes as plain numbers, are modelled as plain `Int`;
* the JavaScript truthiness idioms `x || d` (on strings: empty string falls
  through, on numbers: zero falls through) and `x ?? d` are modelled by
  explicit helper functions;
* React state updates become explicit state-passing: each socket/event
  handler is a function from the incoming message and the previous state to
  the next state.
-/

namespace Picha

/-- JavaScript `a || b` on an optional string: `undefined`/`null` and the
empty string are falsy and fall through to the default. -/
def jsOrStr (a : Option String) (b : String) : String :=
  match a with
  | some s => if s = "" then b else s
  | none => b

/-- JavaScript `a || b` on an optional number (integer-valued): `undefined`
and `0` are falsy and fall through to the default. -/
def jsOrInt (a : Option Int) (b : Int) : Int :=
  match a with
  | some v => if v = 0 then b else v
  | none => b

/-- Embeds the `ScarcityInfo` interface of `src/pages/Index.tsx` (with the
`total_supply` field written by `handleScarcityUpdate`, optional as in
`src/types/nft.ts`).  `rarity_score` and `price_multiplier` are only carried
through, never computed with, so the `Int` model is adequate. -/
structure ScarcityInfo where
  combination : String
  total_limit : Int
  minted_count : Int
  rarity_score : Int
  price_multiplier : Int
  is_sold_out : Bool
  remaining_slots : Int
  total_supply : Option Int
  deriving Repr, DecidableEq

/-- Embeds the `CombinationScarcityAPI` interface of `src/pages/Index.tsx`:
one element of the `/api/combinations` snapshot held in the
`allCombinationsScarcity` React state. -/
structure CombinationScarcityAPI where
  artist : String
  event_type : String
  is_available : Bool
  scarcity_info : ScarcityInfo
  waitlist_count : Int
  estimated_availability : String
  price_multiplier : Int
  deriving Repr, DecidableEq

/-- Embeds the `NewMintMessage` WebSocket payload interface of
`src/pages/Index.tsx`. -/
structure NewMintMessage where
  nft_id : String
  name : String
  image_url : String
  artist : String
  event_type : String
  owner_address : String
  canister_id : String
  timestamp : Int
  deriving Repr, DecidableEq

/-- Embeds the `ScarcityUpdateMessage` WebSocket payload interface shared by
`src/pages/Index.tsx` and `src/components/ScarcityIndicator.tsx`. -/
structure ScarcityUpdateMessage where
  artist : String
  event_type : String
  remaining_slots : Int
  total_supply : Int
  is_available : Bool
  timestamp : Int
  deriving Repr, DecidableEq

/-- The per-combination body of `handleNewMint`
(`src/pages/Index.tsx:1054-1077`): on an artist/event match, increment
`minted_count`, recompute `remaining_slots` from `total_limit`, and
recompute `is_sold_out` and `is_available`; otherwise return the
combination unchanged.  (`combo.scarcity_info?.minted_count || 0` and
`combo.scarcity_info?.total_limit || 0` read the always-present numeric
fields; `x || 0` is the identity on integers because `0 || 0 = 0`.) -/
def handleNewMintCombo (data : NewMintMessage) (combo : CombinationScarcityAPI) :
    CombinationScarcityAPI :=
  if combo.artist = data.artist ∧ combo.event_type = data.event_type then
    let currentMinted := combo.scarcity_info.minted_count
    let currentTotal := combo.scarcity_info.total_limit
    let newMintedCount := currentMinted + 1
    let newRemainingSlots := currentTotal - newMintedCount
    { combo with
        scarcity_info := { combo.scarcity_info with
          minted_count := newMintedCount
          remaining_slots := newRemainingSlots
          is_sold_out := decide (newRemainingSlots ≤ 0) }
        is_available := decide (newRemainingSlots > 0) }
  else combo

/-- Embeds `handleNewMint` (`src/pages/Index.tsx:1043-1079`): the state update
`setAllCombinationsScarcity(prev => prev.map(...))` applied to the
scarcity list. -/
def handleNewMint (data : NewMintMessage) (s : List CombinationScarcityAPI) :
    List CombinationScarcityAPI :=
  s.map (handleNewMintCombo data)

/-- The per-combination body of the Index page `handleScarcityUpdate`
(`src/pages/Index.tsx:1085-1104`): on an artist/event match, take
`remaining_slots`, `total_supply` and `is_available` from the message,
derive `minted_count` as `total_supply - remaining_slots`, and recompute
`is_sold_out`; otherwise return the combination unchanged. -/
def handleScarcityUpdateCombo (data : ScarcityUpdateMessage)
    (combo : CombinationScarcityAPI) : CombinationScarcityAPI :=
  if combo.artist = data.artist ∧ combo.event_type = data.event_type then
    let newMintedCount := data.total_supply - data.remaining_slots
    { combo with
        scarcity_info := { combo.scarcity_info with
          remaining_slots := data.remaining_slots
          total_supply := some data.total_supply
          minted_count := newMintedCount
          is_sold_out := decide (data.remaining_slots ≤ 0) }
        is_available := data.is_available }
  else combo

/-- Embeds `handleScarcityUpdate` on the Index page (`src/pages/Index.tsx:1083-1117`):
the state update applied to the scarcity list (the toast branches do not
touch the state). -/
def handleScarcityUpdate (data : ScarcityUpdateMessage)
    (s : List CombinationScarcityAPI) : List CombinationScarcityAPI :=
  s.map (handleScarcityUpdateCombo data)

/-- The per-combination body of the `onScarcityChange` callback passed to
`ScarcityIndicator` (`src/pages/Index.tsx:1823-1843`): on a match with the
currently selected artist/event, set `remaining_slots` to the reported
value, derive `minted_count` from `total_limit`, and recompute
`is_sold_out` and `is_available`; otherwise return the combination
unchanged. -/
def onScarcityChangeCombo (selectedArtist selectedEvent : String)
    (remaining : Int) (combo : CombinationScarcityAPI) : CombinationScarcityAPI :=
  if combo.artist = selectedArtist ∧ combo.event_type = selectedEvent then
    let newMintedCount := combo.scarcity_info.total_limit - remaining
    let newRemainingSlots := remaining
    { combo with
        scarcity_info := { combo.scarcity_info with
          minted_count := newMintedCount
          remaining_slots := newRemainingSlots
          is_sold_out := decide (newRemainingSlots ≤ 0) }
        is_available := decide (newRemainingSlots > 0) }
  else combo

/-- The `onScarcityChange` callback (`src/pages/Index.tsx:1823-1843`)
applied to the scarcity list. -/
def onScarcityChange (selectedArtist selectedEvent : String) (remaining : Int)
    (s : List CombinationScarcityAPI) : List CombinationScarcityAPI :=
  s.map (onScarcityChangeCombo selectedArtist selectedEvent remaining)

/-- The events that can modify the `allCombinationsScarcity` state after the
REST snapshot is installed: `new_mint` socket messages, `scarcity_update`
socket messages, and `onScarcityChange` callbacks from `ScarcityIndicator`. -/
inductive ScarcityEvent where
  | newMint (data : NewMintMessage)
  | scarcityUpdate (data : ScarcityUpdateMessage)
  | scarcityChange (selectedArtist selectedEvent : String) (remaining : Int)
  deriving Repr, DecidableEq

/-- One event applied to the scarcity list, dispatching to the handler the
client registers for it. -/
def applyScarcityEvent (s : List CombinationScarcityAPI) :
    ScarcityEvent → List CombinationScarcityAPI
  | ScarcityEvent.newMint data => handleNewMint data s
  | ScarcityEvent.scarcityUpdate data => handleScarcityUpdate data s
  | ScarcityEvent.scarcityChange a e r => onScarcityChange a e r s

/-- A sequence of events applied in order to a snapshot. -/
def applyScarcityEvents (es : List ScarcityEvent)
    (s : List CombinationScarcityAPI) : List CombinationScarcityAPI :=
  es.foldl applyScarcityEvent s

/-- The consistency property claimed for every reachable scarcity state:
`remaining_slots` agrees with `total_limit - minted_count`, `is_sold_out`
holds exactly on nonpositive `remaining_slots`, and `is_available` holds
exactly on positive `remaining_slots`. -/
def comboInvariant (c : CombinationScarcityAPI) : Prop :=
  c.scarcity_info.remaining_slots =
      c.scarcity_info.total_limit - c.scarcity_info.minted_count
  ∧ (c.scarcity_info.is_sold_out = true ↔ c.scarcity_info.remaining_slots ≤ 0)
  ∧ (c.is_available = true ↔ c.scarcity_info.remaining_slots > 0)

instance : DecidablePred comboInvariant := fun c =>
  inferInstanceAs (Decidable (c.scarcity_info.remaining_slots =
      c.scarcity_info.total_limit - c.scarcity_info.minted_count
    ∧ (c.scarcity_info.is_sold_out = true ↔ c.scarcity_info.remaining_slots ≤ 0)
    ∧ (c.is_available = true ↔ c.scarcity_info.remaining_slots > 0)))

/-- The state of the `ScarcityIndicator` component that its
`scarcity_update` listener can write
(`src/components/ScarcityIndicator.tsx:93-94`). -/
structure IndicatorState where
  remainingSlots : Int
  totalSupply : Int
  deriving Repr, DecidableEq

/-- The `handleScarcityUpdate` listener inside `ScarcityIndicator`
(`src/components/ScarcityIndicator.tsx:125-135`): it updates the displayed
`remainingSlots`/`totalSupply` only when the message's artist and event type
equal the component's props, and is a no-op otherwise. -/
def indicatorHandleScarcityUpdate (artist eventType : String)
    (data : ScarcityUpdateMessage) (s : IndicatorState) : IndicatorState :=
  if data.artist = artist ∧ data.event_type = eventType then
    { remainingSlots := data.remaining_slots, totalSupply := data.total_supply }
  else s

/-! ### Claims C1–C3: scarcity synchronization -/

/-- The scarcity record of the snapshot combination used against C1:
10 slots, none minted, consistent flags. -/
def c1Info : ScarcityInfo :=
  { combination := "Da Vinci-architecture", total_limit := 10, minted_count := 0,
    rarity_score := 5, price_multiplier := 1, is_sold_out := false,
    remaining_slots := 10, total_supply := some 10 }

/-- A one-element `/api/combinations` snapshot that satisfies
`comboInvariant` for every combination: 10 slots, none minted. -/
def c1Snapshot : List CombinationScarcityAPI :=
  [{ artist := "Da Vinci", event_type := "architecture", is_available := true,
     scarcity_info := c1Info, waitlist_count := 0,
     estimated_availability := "now", price_multiplier := 1 }]

/-- A `scarcity_update` message whose `is_available` flag disagrees with its
`remaining_slots` (5 slots left, yet `is_available = false`); the Index page
handler copies the flag verbatim. -/
def c1Msg : ScarcityUpdateMessage :=
  { artist := "Da Vinci", event_type := "architecture", remaining_slots := 5,
    total_supply := 10, is_available := false, timestamp := 100 }

/-- C1 counterexample: starting from a snapshot in which every combination
satisfies the claimed invariant, a single `scarcity_update` event reaches a
state in which the invariant fails (the handler stores the message's
`is_available` flag without recomputing it from `remaining_slots`). -/
theorem c1_invariant_counterexample :
    (∀ c ∈ c1Snapshot, comboInvariant c) ∧
    ¬ (∀ c ∈ applyScarcityEvents [ScarcityEvent.scarcityUpdate c1Msg] c1Snapshot,
        comboInvariant c) := by
  decide

/-- C1 (amended): a combination just updated by a `new_mint` event or an
`onScarcityChange` callback satisfies the full invariant
(`remaining_slots = total_limit - minted_count`,
`is_sold_out ↔ remaining_slots ≤ 0`, `is_available ↔ remaining_slots > 0`);
a `scarcity_update` event guarantees on the combinations it matches only
`is_sold_out ↔ remaining_slots ≤ 0` and copies `is_available` verbatim from
the message, so the full invariant is not maintained across arbitrary event
sequences. -/
theorem c1_invariant_amended :
    ∀ (data : NewMintMessage) (m : ScarcityUpdateMessage) (a e : String)
      (r : Int) (c : CombinationScarcityAPI),
      (c.artist = data.artist ∧ c.event_type = data.event_type →
        comboInvariant (handleNewMintCombo data c)) ∧
      (c.artist = a ∧ c.event_type = e →
        comboInvariant (onScarcityChangeCombo a e r c)) ∧
      (c.artist = m.artist ∧ c.event_type = m.event_type →
        (((handleScarcityUpdateCombo m c).scarcity_info.is_sold_out = true) ↔
          (handleScarcityUpdateCombo m c).scarcity_info.remaining_slots ≤ 0) ∧
        (handleScarcityUpdateCombo m c).is_available = m.is_available) := by
  intro data m a e r c
  refine ⟨fun h => ?_, fun h => ?_, fun h => ?_⟩
  · obtain ⟨h1, h2⟩ := h
    simp [handleNewMintCombo, comboInvariant, h1, h2, decide_eq_true_iff]
  · obtain ⟨h1, h2⟩ := h
    simp [onScarcityChangeCombo, comboInvariant, h1, h2, decide_eq_true_iff]
  · obtain ⟨h1, h2⟩ := h
    simp [handleScarcityUpdateCombo, h1, h2, decide_eq_true_iff]

/-- C2: a `new_mint` message updates exactly the combinations of the list
whose artist and event type match the message — for those, `minted_count`
grows by 1, `remaining_slots` becomes `total_limit` minus the new
`minted_count`, `is_sold_out` becomes true iff the new `remaining_slots`
is nonpositive and `is_available` true iff it is positive — and leaves every
other combination unchanged. -/
theorem c2_handleNewMint_spec :
    ∀ (data : NewMintMessage) (s : List CombinationScarcityAPI),
      (handleNewMint data s).length = s.length ∧
      ∀ (i : Nat) (h : i < s.length) (h2 : i < (handleNewMint data s).length),
        ((s.get ⟨i, h⟩).artist = data.artist ∧
            (s.get ⟨i, h⟩).event_type = data.event_type →
          ((handleNewMint data s).get ⟨i, h2⟩).scarcity_info.minted_count
              = (s.get ⟨i, h⟩).scarcity_info.minted_count + 1 ∧
          ((handleNewMint data s).get ⟨i, h2⟩).scarcity_info.remaining_slots
              = (s.get ⟨i, h⟩).scarcity_info.total_limit
                - ((s.get ⟨i, h⟩).scarcity_info.minted_count + 1) ∧
          (((handleNewMint data s).get ⟨i, h2⟩).scarcity_info.is_sold_out = true ↔
            ((handleNewMint data s).get ⟨i, h2⟩).scarcity_info.remaining_slots ≤ 0) ∧
          (((handleNewMint data s).get ⟨i, h2⟩).is_available = true ↔
            ((handleNewMint data s).get ⟨i, h2⟩).scarcity_info.remaining_slots > 0)) ∧
        (¬((s.get ⟨i, h⟩).artist = data.artist ∧
            (s.get ⟨i, h⟩).event_type = data.event_type) →
          (handleNewMint data s).get ⟨i, h2⟩ = s.get ⟨i, h⟩) := by
  intro data s
  refine ⟨by simp [handleNewMint], fun i h h2 => ?_⟩
  have key : (handleNewMint data s).get ⟨i, h2⟩
      = handleNewMintCombo data (s.get ⟨i, h⟩) := by
    simp [handleNewMint, List.get_eq_getElem]
  rw [key]
  constructor
  · intro hm
    obtain ⟨h1, h2⟩ := hm
    simp only [List.get_eq_getElem] at h1 h2
    simp [handleNewMintCombo, h1, h2, decide_eq_true_iff]
  · intro hm
    simp only [handleNewMintCombo, if_neg hm]

/-- C3: a `scarcity_update` message updates exactly the combinations of the
list whose artist and event type match the message — setting
`remaining_slots` and `is_available` to the message's values, deriving
`minted_count` as `total_supply - remaining_slots` and `is_sold_out` as
`remaining_slots ≤ 0` — leaves every other combination unchanged, and the
`ScarcityIndicator` listener updates its displayed `remainingSlots` and
`totalSupply` from such a message exactly when the message's artist and
event type equal the component's props. -/
theorem c3_handleScarcityUpdate_spec :
    ∀ (data : ScarcityUpdateMessage) (s : List CombinationScarcityAPI)
      (artist eventType : String) (ind : IndicatorState),
      (handleScarcityUpdate data s).length = s.length ∧
      (∀ (i : Nat) (h : i < s.length)
          (h2 : i < (handleScarcityUpdate data s).length),
        ((s.get ⟨i, h⟩).artist = data.artist ∧
            (s.get ⟨i, h⟩).event_type = data.event_type →
          ((handleScarcityUpdate data s).get ⟨i, h2⟩).scarcity_info.remaining_slots
              = data.remaining_slots ∧
          ((handleScarcityUpdate data s).get ⟨i, h2⟩).is_available
              = data.is_available ∧
          ((handleScarcityUpdate data s).get ⟨i, h2⟩).scarcity_info.minted_count
              = data.total_supply - data.remaining_slots ∧
          (((handleScarcityUpdate data s).get ⟨i, h2⟩).scarcity_info.is_sold_out
              = true ↔ data.remaining_slots ≤ 0)) ∧
        (¬((s.get ⟨i, h⟩).artist = data.artist ∧
            (s.get ⟨i, h⟩).event_type = data.event_type) →
          (handleScarcityUpdate data s).get ⟨i, h2⟩ = s.get ⟨i, h⟩)) ∧
      (data.artist = artist ∧ data.event_type = eventType →
        indicatorHandleScarcityUpdate artist eventType data ind =
          { remainingSlots := data.remaining_slots,
            totalSupply := data.total_supply }) ∧
      (¬(data.artist = artist ∧ data.event_type = eventType) →
        indicatorHandleScarcityUpdate artist eventType data ind = ind) := by
  intro data s artist eventType ind
  refine ⟨by simp [handleScarcityUpdate], fun i h h2 => ?_, fun hm => ?_, fun hm => ?_⟩
  · have key : (handleScarcityUpdate data s).get ⟨i, h2⟩
        = handleScarcityUpdateCombo data (s.get ⟨i, h⟩) := by
      simp [handleScarcityUpdate, List.get_eq_getElem]
    rw [key]
    constructor
    · intro hm
      obtain ⟨h1, h2⟩ := hm
      simp only [List.get_eq_getElem] at h1 h2
      simp [handleScarcityUpdateCombo, h1, h2, decide_eq_true_iff]
    · intro hm
      simp only [handleScarcityUpdateCombo, if_neg hm]
  · simp only [indicatorHandleScarcityUpdate, if_pos hm]
  · simp only [indicatorHandleScarcityUpdate, if_neg hm]

/-! ### Claim C4: form validation -/

/-- Embeds the `WalletInfo` interface (`src/pages/Index.tsx:56-61`). -/
structure WalletInfo where
  principal : String
  accountId : String
  isConnected : Bool
  balance : Option Int
  deriving Repr, DecidableEq

/-- The two values of the `mode` state (`'basic' | 'advanced'`). -/
inductive Mode where
  | basic
  | advanced
  deriving Repr, DecidableEq

/-- The slice of the Index page's React state that `validateForm` reads:
`wallet` (null when disconnected), `mode`, the dropdown selections (empty
string when nothing is selected — the empty string is falsy in the
`!selectedArtist` checks), the custom prompt, and the combinations list. -/
structure FormState where
  wallet : Option WalletInfo
  mode : Mode
  selectedArtist : String
  selectedEvent : String
  customPrompt : String
  allCombinationsScarcity : List CombinationScarcityAPI
  deriving Repr

/-- Embeds `getScarcityForCombination` (`src/pages/Index.tsx:1408-1422`): `none`
when the list is empty or no combination matches, otherwise the matching
combination's nested `scarcity_info`. -/
def getScarcityForCombination (all : List CombinationScarcityAPI)
    (artist eventType : String) : Option ScarcityInfo :=
  if all.isEmpty then none
  else
    (all.find? fun combo =>
      combo.artist == artist && combo.event_type == eventType).map
      (fun combo => combo.scarcity_info)

/-- Embeds `validateForm` (`src/pages/Index.tsx:1207-1239`): wallet check first;
in basic mode artist/event presence and a sold-out check through
`getScarcityForCombination` (`selectedComboScarcity?.is_sold_out` is falsy
when the scarcity data is absent); in advanced mode trimmed-prompt
emptiness and length bounds; `null` otherwise. -/
def validateForm (s : FormState) : Option String :=
  match s.wallet with
  | none => some "Please connect your wallet to generate NFTs"
  | some _ =>
    if s.mode = Mode.basic then
      if s.selectedArtist = "" then some "Please select an artist"
      else if s.selectedEvent = "" then some "Please select an event"
      else
        match getScarcityForCombination s.allCombinationsScarcity
            s.selectedArtist s.selectedEvent with
        | some info =>
          if info.is_sold_out then
            some ("The " ++ s.selectedArtist ++ " - " ++ s.selectedEvent ++
              " combination is currently sold out.")
          else none
        | none => none
    else
      if s.customPrompt.trim = "" then some "Please enter a custom prompt"
      else if s.customPrompt.trim.length < 10 then
        some "Custom prompt must be at least 10 characters long"
      else if s.customPrompt.trim.length > 500 then
        some "Custom prompt must be less than 500 characters"
      else none

/-- C4: `validateForm` returns a non-null message exactly when the wallet is
disconnected, or in basic mode no artist or no event is selected or the
selected combination's scarcity record is loaded and sold out, or in
advanced mode the trimmed custom prompt is empty, shorter than 10
characters or longer than 500 characters; in particular an unloaded
scarcity record never blocks basic mode. -/
theorem c4_validateForm_spec :
    ∀ (s : FormState),
      (validateForm s).isSome = true ↔
        (s.wallet = none
         ∨ (s.wallet ≠ none ∧ s.mode = Mode.basic ∧
             (s.selectedArtist = "" ∨ s.selectedEvent = ""
              ∨ ∃ info, getScarcityForCombination s.allCombinationsScarcity
                    s.selectedArtist s.selectedEvent = some info ∧
                  info.is_sold_out = true))
         ∨ (s.wallet ≠ none ∧ s.mode = Mode.advanced ∧
             (s.customPrompt.trim = "" ∨ s.customPrompt.trim.length < 10
              ∨ s.customPrompt.trim.length > 500))) := by
  intro s
  rcases s with ⟨w, m, a, e, p, combos⟩
  cases w with
  | none => simp [validateForm]
  | some wi =>
    cases m with
    | basic =>
      by_cases ha : a = ""
      · simp [validateForm, ha]
      · by_cases he : e = ""
        · simp [validateForm, ha, he]
        · rcases hg : getScarcityForCombination combos a e with _ | info
          · simp [validateForm, ha, he, hg]
          · by_cases hs : info.is_sold_out
            · simp [validateForm, ha, he, hg, hs]
            · simp [validateForm, ha, he, hg, hs]
    | advanced =>
      by_cases h0 : p.trim = ""
      · simp [validateForm, h0]
      · by_cases hlo : p.trim.length < 10
        · simp [validateForm, h0, hlo]
        · by_cases hhi : p.trim.length > 500
          · simp [validateForm, h0, hlo, hhi]
          · simp [validateForm, h0, hlo, hhi]

/-! ### Claim C5: retry with exponential backoff -/

/-- The retry bookkeeping around `fetchInitialData`: the `retryCount` React
state and the multiset of re-fetches scheduled through `setTimeout`,
recorded as the list of their delays in milliseconds. -/
structure RetryState where
  retryCount : Nat
  scheduled : List Nat
  deriving Repr, DecidableEq

/-- Embeds `retryFetchInitialData` (`src/pages/Index.tsx:893-903`): increment the
retry count and schedule exactly one re-fetch after
`Math.min(1000 * Math.pow(2, newRetryCount - 1), 5000)` milliseconds. -/
def retryFetchInitialData (s : RetryState) : RetryState :=
  let newRetryCount := s.retryCount + 1
  let delay := min (1000 * 2 ^ (newRetryCount - 1)) 5000
  { retryCount := newRetryCount, scheduled := s.scheduled ++ [delay] }

/-- The success path of `fetchInitialData` (`src/pages/Index.tsx:868`):
`setRetryCount(0)` — the retry count is reset on a successful fetch. -/
def fetchInitialDataSuccess (s : RetryState) : RetryState :=
  { s with retryCount := 0 }

/-- C5: on the n-th retry press since the last successful fetch (the retry
count then reads n-1), exactly one re-fetch is scheduled, after
`min(1000 * 2^(n-1), 5000)` milliseconds, the retry count becomes n, and a
successful fetch resets the retry count to 0. -/
theorem c5_retry_backoff (s : RetryState) (n : Nat) (h1 : 1 ≤ n)
    (h2 : s.retryCount = n - 1) :
    (retryFetchInitialData s).retryCount = n ∧
    (retryFetchInitialData s).scheduled
      = s.scheduled ++ [min (1000 * 2 ^ (n - 1)) 5000] ∧
    ∀ t : RetryState, (fetchInitialDataSuccess t).retryCount = 0 := by
  have hn : s.retryCount + 1 = n := by omega
  refine ⟨by simp [retryFetchInitialData, hn], ?_, fun t => rfl⟩
  simp [retryFetchInitialData, hn, h2]

/-- C5 witness: the third retry press after two failed ones schedules one
re-fetch with delay `min(1000 * 2^2, 5000) = 4000` and sets the count to 3. -/
theorem c5_retry_backoff_witness :
    (retryFetchInitialData { retryCount := 2, scheduled := [1000, 2000] }).retryCount
        = 3 ∧
    (retryFetchInitialData { retryCount := 2, scheduled := [1000, 2000] }).scheduled
        = [1000, 2000] ++ [min (1000 * 2 ^ (3 - 1)) 5000] ∧
    ∀ t : RetryState, (fetchInitialDataSuccess t).retryCount = 0 :=
  c5_retry_backoff { retryCount := 2, scheduled := [1000, 2000] } 3
    (by decide) (by decide)

/-! ### Claim C6: NFT-generation error classification -/

/-- Embeds the `APIError` interface (`src/pages/Index.tsx:74-78`). -/
structure APIError where
  message : String
  status : Option Int
  code : Option String
  deriving Repr, DecidableEq

/-- The parts of an axios error that the catch block of
`handleUpdatePreview` and `createAPIError` read: `error.code`,
`error.response?.status`, `error.response?.data?.error`,
`error.response?.data?.message` and `error.message`. -/
structure AxiosErrorData where
  code : Option String
  status : Option Int
  respError : Option String
  respMessage : Option String
  message : String
  deriving Repr, DecidableEq

/-- The classification of the caught value performed by
`axios.isAxiosError` and `instanceof Error`: an axios error, some other
`Error` instance, or a non-Error thrown value. -/
inductive JsError where
  | axios (a : AxiosErrorData)
  | jsErr (message : String)
  | other
  deriving Repr, DecidableEq

/-- Embeds `createAPIError` (`src/pages/Index.tsx:711-731`): for an axios error the
message is `response?.data?.error || response?.data?.message ||
error.message || "Network error occurred while <context>"` with the
response status and axios code carried over; for an `Error` instance
`"<message> while <context>"`; otherwise the unknown-error message. -/
def createAPIError (e : JsError) (context : String) : APIError :=
  match e with
  | JsError.axios a =>
    { message := jsOrStr a.respError (jsOrStr a.respMessage
        (jsOrStr (some a.message) ("Network error occurred while " ++ context))),
      status := a.status, code := a.code }
  | JsError.jsErr m =>
    { message := m ++ " while " ++ context, status := none, code := none }
  | JsError.other =>
    { message := "Unknown error occurred while " ++ context, status := none,
      code := none }

/-- What the catch/finally blocks of `handleUpdatePreview` leave behind: the
stored `errors.nftGeneration` record, whether `toast.error` ran, and the
final `loadingStates.nftGeneration` flag. -/
structure FailureOutcome where
  nftGenerationError : APIError
  toastShown : Bool
  nftGenerationLoading : Bool
  deriving Repr, DecidableEq

/-- The catch and finally blocks of `handleUpdatePreview`
(`src/pages/Index.tsx:1360-1405`): axios `ECONNABORTED` first, then HTTP
429, then HTTP 500, then `createAPIError`; non-axios failures go straight
to `createAPIError`; `toast.error` runs in every failure case and the
finally block clears the `nftGeneration` loading flag. -/
def handleGenerationFailure (e : JsError) : FailureOutcome :=
  let err : APIError :=
    match e with
    | JsError.axios a =>
      if a.code = some "ECONNABORTED" then
        { message := "NFT generation timed out. The server may be busy, please try again.",
          status := none, code := some "TIMEOUT" }
      else if a.status = some 429 then
        { message := "Too many requests. Please wait a moment before trying again.",
          status := some 429, code := some "RATE_LIMIT" }
      else if a.status = some 500 then
        { message := "Server error occurred during NFT generation. Please try again.",
          status := some 500, code := some "SERVER_ERROR" }
      else createAPIError e "generating NFT"
    | _ => createAPIError e "generating NFT"
  { nftGenerationError := err, toastShown := true, nftGenerationLoading := false }

/-- C6: the stored NFT-generation error is classified coarsely and
exhaustively — axios `ECONNABORTED` gives code `TIMEOUT`; otherwise HTTP
429 gives `RATE_LIMIT` with status 429; otherwise HTTP 500 gives
`SERVER_ERROR` with status 500; every other failure is the generic
`createAPIError` record built from the response or exception message — and
in every failure case the toast is shown and the loading flag ends false. -/
theorem c6_error_classification :
    ∀ (e : JsError),
      ((∃ a, e = JsError.axios a ∧ a.code = some "ECONNABORTED") →
        (handleGenerationFailure e).nftGenerationError.code = some "TIMEOUT") ∧
      ((∃ a, e = JsError.axios a ∧ a.code ≠ some "ECONNABORTED" ∧
          a.status = some 429) →
        (handleGenerationFailure e).nftGenerationError.code = some "RATE_LIMIT" ∧
        (handleGenerationFailure e).nftGenerationError.status = some 429) ∧
      ((∃ a, e = JsError.axios a ∧ a.code ≠ some "ECONNABORTED" ∧
          a.status ≠ some 429 ∧ a.status = some 500) →
        (handleGenerationFailure e).nftGenerationError.code = some "SERVER_ERROR" ∧
        (handleGenerationFailure e).nftGenerationError.status = some 500) ∧
      ((∀ a, e = JsError.axios a → a.code ≠ some "ECONNABORTED" ∧
          a.status ≠ some 429 ∧ a.status ≠ some 500) →
        (handleGenerationFailure e).nftGenerationError
          = createAPIError e "generating NFT") ∧
      (handleGenerationFailure e).toastShown = true ∧
      (handleGenerationFailure e).nftGenerationLoading = false := by
  intro e
  cases e with
  | axios a =>
    refine ⟨?_, ?_, ?_, ?_, rfl, rfl⟩
    · rintro ⟨a2, heq, hc⟩
      injection heq with h
      subst h
      simp [handleGenerationFailure, hc]
    · rintro ⟨a2, heq, hne, hs⟩
      injection heq with h
      subst h
      simp [handleGenerationFailure, hne, hs]
    · rintro ⟨a2, heq, hne, hne429, hs⟩
      injection heq with h
      subst h
      simp [handleGenerationFailure, hne, hne429, hs]
    · intro hother
      obtain ⟨h1, h2, h3⟩ := hother a rfl
      simp [handleGenerationFailure, h1, h2, h3]
  | jsErr m => simp [handleGenerationFailure]
  | other => simp [handleGenerationFailure]

/-! ### Claim C7: NFT data construction with defaults -/

/-- Embeds the `GeneticTraits` interface (`src/pages/Index.tsx:13-20`). -/
structure GeneticTraits where
  luminosity : Int
  architectural_complexity : Int
  ethereal_quality : Int
  evolution_speed : Int
  style_intensity : Int
  temporal_resonance : Int
  deriving Repr, DecidableEq

/-- Embeds the `EvolutionEntry` interface (`src/pages/Index.tsx:32-39`);
its fields are only carried through `buildNftData`. -/
structure EvolutionEntry where
  version : String
  timestamp : Int
  prompt_used : String
  image_url : String
  traits_changed : List String
  event : String
  deriving Repr, DecidableEq

/-- Embeds the `NFTData` interface (`src/pages/Index.tsx:41-53`). -/
structure NFTData where
  id : String
  image_uri : String
  artist : String
  event_type : String
  version : Int
  timestamp : Int
  genetic_traits : GeneticTraits
  scarcity_info : ScarcityInfo
  prompt : String
  evolution_history : List EvolutionEntry
  evolution_period_days : Int
  deriving Repr, DecidableEq

/-- The create-NFT server response object `nft` as the client reads it
(`src/pages/Index.tsx:1306-1354`): every field it dereferences is treated
as possibly absent. -/
structure ServerNft where
  nft_id : Option String
  image_url : Option String
  image_uri : Option String
  artist : Option String
  event_type : Option String
  version : Option Int
  timestamp : Option Int
  genetic_traits : Option GeneticTraits
  scarcity_info : Option ScarcityInfo
  prompt : Option String
  evolution_history : Option (List EvolutionEntry)
  evolution_period_days : Option Int
  deriving Repr, DecidableEq

/-- The `nftData` construction (`src/pages/Index.tsx:1336-1354`).
`nowMs` is `Date.now()`; the `timestamp` default `Math.floor(Date.now() /
1000)` is `nowMs / 1000` (the values are positive, so truncating and floor
division agree).  The `image_uri` expression mirrors the source exactly:
the template literal `` `http://localhost:5000${nft.image_url}` ``
stringifies a missing `image_url` as `"undefined"` and is itself never the
empty string, so the `|| nft.image_uri || ''` alternatives never apply. -/
def buildNftData (nft : ServerNft) (nowMs : Int) (mode : Mode)
    (customPrompt selectedArtist selectedEvent : String)
    (evolutionPeriod : Int) : NFTData :=
  { id := jsOrStr nft.nft_id ("nft-" ++ toString nowMs),
    image_uri := jsOrStr (some ("http://localhost:5000" ++
        (match nft.image_url with | some u => u | none => "undefined")))
      (jsOrStr nft.image_uri ""),
    artist := jsOrStr nft.artist (jsOrStr (some selectedArtist) "Unknown Artist"),
    event_type := jsOrStr nft.event_type
      (jsOrStr (some selectedEvent) "Unknown Event"),
    version := jsOrInt nft.version 1,
    timestamp := jsOrInt nft.timestamp (nowMs / 1000),
    genetic_traits := nft.genetic_traits.getD
      { luminosity := 0, architectural_complexity := 0, ethereal_quality := 0,
        evolution_speed := 0, style_intensity := 0, temporal_resonance := 0 },
    scarcity_info := nft.scarcity_info.getD
      { combination := "", total_limit := 0, minted_count := 0, rarity_score := 0,
        price_multiplier := 0, is_sold_out := false, remaining_slots := 0,
        total_supply := none },
    prompt := jsOrStr nft.prompt
      (if mode = Mode.advanced then customPrompt
       else selectedArtist ++ " style " ++ selectedEvent),
    evolution_history := nft.evolution_history.getD [],
    evolution_period_days := jsOrInt nft.evolution_period_days evolutionPeriod }

/-- A create-NFT response that carries only `nft_id`: every optional field
is absent, in particular `image_url`. -/
def c7ServerNft : ServerNft :=
  { nft_id := some "abc123", image_url := none, image_uri := none,
    artist := none, event_type := none, version := none, timestamp := none,
    genetic_traits := none, scarcity_info := none, prompt := none,
    evolution_history := none, evolution_period_days := none }

/-- C7: on a response carrying only `nft_id`, the defaults for version,
timestamp, traits, scarcity, history, evolution period and prompt are as
the specification says, but `image_uri` is the string
`"http://localhost:5000undefined"` — the template literal is always truthy,
so the documented `nft.image_uri`/empty-string fallbacks are dead code. -/
theorem c7_image_uri_defaults_eval :
    (buildNftData c7ServerNft 1700000000000 Mode.basic "" "Da Vinci"
        "architecture" 30).image_uri = "http://localhost:5000undefined" ∧
    (buildNftData c7ServerNft 1700000000000 Mode.basic "" "Da Vinci"
        "architecture" 30).id = "abc123" ∧
    (buildNftData c7ServerNft 1700000000000 Mode.basic "" "Da Vinci"
        "architecture" 30).version = 1 ∧
    (buildNftData c7ServerNft 1700000000000 Mode.basic "" "Da Vinci"
        "architecture" 30).timestamp = 1700000000 ∧
    (buildNftData c7ServerNft 1700000000000 Mode.basic "" "Da Vinci"
        "architecture" 30).genetic_traits
      = { luminosity := 0, architectural_complexity := 0, ethereal_quality := 0,
          evolution_speed := 0, style_intensity := 0, temporal_resonance := 0 } ∧
    (buildNftData c7ServerNft 1700000000000 Mode.basic "" "Da Vinci"
        "architecture" 30).scarcity_info
      = { combination := "", total_limit := 0, minted_count := 0,
          rarity_score := 0, price_multiplier := 0, is_sold_out := false,
          remaining_slots := 0, total_supply := none } ∧
    (buildNftData c7ServerNft 1700000000000 Mode.basic "" "Da Vinci"
        "architecture" 30).evolution_history = [] ∧
    (buildNftData c7ServerNft 1700000000000 Mode.basic "" "Da Vinci"
        "architecture" 30).evolution_period_days = 30 ∧
    (buildNftData c7ServerNft 1700000000000 Mode.basic "" "Da Vinci"
        "architecture" 30).prompt = "Da Vinci style architecture" := by
  refine ⟨rfl, rfl, rfl, by decide, rfl, rfl, rfl, by decide, rfl⟩

/-! ### Claim C8: socket cleanup on unmount -/

/-- A socket.io client socket as the audited code observes it: its connected
flag, the registered `(event, handler)` listeners in registration order
(handlers are identified by number, standing for function identity), and the
events emitted so far with their payload fields. -/
structure SocketState where
  connected : Bool
  listeners : List (String × Nat)
  emitted : List (String × List String)
  deriving Repr, DecidableEq

/-- Embeds `socket.on(event, handler)`. -/
def socketOn (ev : String) (h : Nat) (s : SocketState) : SocketState :=
  { s with listeners := s.listeners ++ [(ev, h)] }

/-- Embeds `socket.off(event, handler)`: removes that handler's registrations for
that event and nothing else. -/
def socketOff (ev : String) (h : Nat) (s : SocketState) : SocketState :=
  { s with listeners := s.listeners.filter fun p => !(p.1 == ev && p.2 == h) }

/-- Embeds `socket.disconnect()`. -/
def socketDisconnect (s : SocketState) : SocketState :=
  { s with connected := false }

/-- Embeds `socket.emit(event, payload)`. -/
def socketEmit (ev : String) (payload : List String) (s : SocketState) :
    SocketState :=
  { s with emitted := s.emitted ++ [(ev, payload)] }

/-- The listener registrations of the Index page WebSocket effect
(`src/pages/Index.tsx:1022-1143`): `connect` (0), `disconnect` (1),
`connect_error` (2), `handleNewMint` (3), `handleScarcityUpdate` (4),
`handleEvolutionUpdate` (5), in source order. -/
def indexSocketSetup (s : SocketState) : SocketState :=
  socketOn "evolution_update" 5 (socketOn "scarcity_update" 4
    (socketOn "new_mint" 3 (socketOn "connect_error" 2
      (socketOn "disconnect" 1 (socketOn "connect" 0 s)))))

/-- The Index page effect cleanup (`src/pages/Index.tsx:1147-1153`):
`socket.off` for the three named listeners, then `socket.disconnect()`. -/
def indexSocketCleanup (s : SocketState) : SocketState :=
  socketDisconnect (socketOff "evolution_update" 5
    (socketOff "scarcity_update" 4 (socketOff "new_mint" 3 s)))

/-- The `ScarcityIndicator` effect cleanup
(`src/components/ScarcityIndicator.tsx:140-146`): only when
`socket.connected` still holds does it remove the `scarcity_update`
listener and emit `leave_scarcity_room` with the current room data;
otherwise it does nothing. -/
def scarcityIndicatorCleanup (artist eventType : String) (h : Nat)
    (s : SocketState) : SocketState :=
  if s.connected then
    socketEmit "leave_scarcity_room" [artist, eventType]
      (socketOff "scarcity_update" h s)
  else s

/-- C8 counterexample: a socket that is already disconnected when the
`ScarcityIndicator` cleanup runs keeps its `scarcity_update` listener and
emits nothing — the cleanup is guarded by `socket.connected`, so it does
not always unsubscribe as the claim states. -/
theorem c8_indicator_cleanup_counterexample :
    ("scarcity_update", 7) ∈ (scarcityIndicatorCleanup "Da Vinci" "architecture" 7
        { connected := false, listeners := [("scarcity_update", 7)],
          emitted := [] }).listeners ∧
    (scarcityIndicatorCleanup "Da Vinci" "architecture" 7
        { connected := false, listeners := [("scarcity_update", 7)],
          emitted := [] }).emitted = [] := by
  decide

/-- C8 (amended): the Index page cleanup removes all three of the named
listeners it registered (`new_mint`, `scarcity_update`, `evolution_update`)
and disconnects the socket; the `ScarcityIndicator` cleanup removes the
`scarcity_update` listener and emits `leave_scarcity_room` for the current
combination whenever the socket is still connected at cleanup time, and
does nothing when it is already disconnected. -/
theorem c8_unmount_cleanup :
    ∀ (s : SocketState) (artist eventType : String) (h : Nat),
      (indexSocketCleanup (indexSocketSetup s)).connected = false ∧
      (∀ p ∈ (indexSocketCleanup (indexSocketSetup s)).listeners,
        p ≠ ("new_mint", 3) ∧ p ≠ ("scarcity_update", 4) ∧
        p ≠ ("evolution_update", 5)) ∧
      ("new_mint", 3) ∈ (indexSocketSetup s).listeners ∧
      ("scarcity_update", 4) ∈ (indexSocketSetup s).listeners ∧
      ("evolution_update", 5) ∈ (indexSocketSetup s).listeners ∧
      (s.connected = true →
        (scarcityIndicatorCleanup artist eventType h s).listeners
            = s.listeners.filter (fun p => !(p.1 == "scarcity_update" && p.2 == h)) ∧
        (scarcityIndicatorCleanup artist eventType h s).emitted
            = s.emitted ++ [("leave_scarcity_room", [artist, eventType])]) ∧
      (s.connected = false → scarcityIndicatorCleanup artist eventType h s = s) := by
  intro s artist eventType h
  refine ⟨rfl, ?_, ?_, ?_, ?_, fun hc => ?_, fun hc => ?_⟩
  · intro p hp
    simp only [indexSocketCleanup, socketDisconnect, socketOff,
      List.mem_filter, Bool.not_eq_eq_eq_not, Bool.not_true, Bool.and_eq_false_imp,
      beq_iff_eq, decide_eq_false_iff_not] at hp
    obtain ⟨⟨⟨-, h3⟩, h4⟩, h5⟩ := hp
    refine ⟨fun hEq => ?_, fun hEq => ?_, fun hEq => ?_⟩
    · rw [hEq] at h3 h4 h5
      simp at h3
    · rw [hEq] at h3 h4 h5
      simp at h4
    · rw [hEq] at h3 h4 h5
      simp at h5
  · simp [indexSocketSetup, socketOn]
  · simp [indexSocketSetup, socketOn]
  · simp [indexSocketSetup, socketOn]
  · simp [scarcityIndicatorCleanup, hc, socketEmit, socketOff]
  · simp [scarcityIndicatorCleanup, hc]

/-! ### Claim C9: uniqueness factors from the wallet -/

/-- JS `s.slice(-n)` for `n > 0`: the last `min(n, length)` characters. -/
def sliceLast (s : String) (n : Nat) : String :=
  String.mk (s.data.drop (s.length - n))

/-- JS `s.padStart(n, c)` with a one-character pad string. -/
def padStart (s : String) (n : Nat) (c : Char) : String :=
  if s.length < n then String.mk (List.replicate (n - s.length) c) ++ s else s

/-- The object returned by `generateUniquenessFactors`
(`src/pages/Index.tsx:780-788`). -/
structure UniquenessFactors where
  location_hash : String
  timestamp_seed : String
  wallet_entropy : String
  wallet_principal : Option String
  wallet_account_id : Option String
  biometric_opt_in : Bool
  biometric_hash : Option String
  deriving Repr, DecidableEq

/-- Embeds `generateUniquenessFactors` (`src/pages/Index.tsx:765-802`).  `rand1`
and `rand2` stand for the two `generateRandomHex(16)` draws (location hash
and the no-wallet entropy fallback) and `nowSec` for
`Math.floor(Date.now() / 1000)`; the `catch` branch is unreachable because
nothing in the `try` body throws (`generateRandomHex` catches internally).
`walletInfo?.principal` and `walletInfo?.accountId` are truthy only for a
present wallet with a non-empty field, hence the `|| null` translations. -/
def generateUniquenessFactors (rand1 rand2 : String) (nowSec : Int)
    (walletInfo : Option WalletInfo) : UniquenessFactors :=
  { location_hash := rand1,
    timestamp_seed := toString nowSec,
    wallet_entropy :=
      match walletInfo with
      | some w => if w.principal = "" then rand2
                  else padStart (sliceLast w.principal 16) 16 '0'
      | none => rand2,
    wallet_principal :=
      match walletInfo with
      | some w => if w.principal = "" then none else some w.principal
      | none => none,
    wallet_account_id :=
      match walletInfo with
      | some w => if w.accountId = "" then none else some w.accountId
      | none => none,
    biometric_opt_in := false,
    biometric_hash := none }

/-- A wallet with a non-empty principal and an empty `accountId`:
`walletInfo?.accountId || null` evaluates to `null` on it. -/
def c9Wallet : WalletInfo :=
  { principal := "abc", accountId := "", isConnected := true, balance := none }

/-- C9 counterexample: for a wallet whose `accountId` is the empty string,
the produced `wallet_account_id` is `null`, not the wallet's `accountId`
field as the claim states. -/
theorem c9_accountId_counterexample :
    (generateUniquenessFactors "r1" "r2" 1700000000
        (some c9Wallet)).wallet_account_id ≠ some c9Wallet.accountId := by
  decide

/-- C9 (amended): for every wallet with a non-empty principal the
wallet-derived outputs are deterministic — `wallet_entropy` is the last 16
characters of the principal left-padded with `'0'` to length 16, the same
across any two calls, and `wallet_principal` is the principal;
`wallet_account_id` is the wallet's `accountId` when that is non-empty and
`null` when it is empty; `biometric_opt_in` is always `false` and
`biometric_hash` always `null`. -/
theorem c9_wallet_determinism (r1 r2 r3 r4 : String) (t1 t2 : Int)
    (w : WalletInfo) (hw : w.principal ≠ "") :
    (generateUniquenessFactors r1 r2 t1 (some w)).wallet_entropy
        = (generateUniquenessFactors r3 r4 t2 (some w)).wallet_entropy ∧
    (generateUniquenessFactors r1 r2 t1 (some w)).wallet_entropy
        = padStart (sliceLast w.principal 16) 16 '0' ∧
    (generateUniquenessFactors r1 r2 t1 (some w)).wallet_principal
        = some w.principal ∧
    (generateUniquenessFactors r1 r2 t1 (some w)).wallet_account_id
        = (if w.accountId = "" then none else some w.accountId) ∧
    ∀ (r5 r6 : String) (t3 : Int) (wi : Option WalletInfo),
      (generateUniquenessFactors r5 r6 t3 wi).biometric_opt_in = false ∧
      (generateUniquenessFactors r5 r6 t3 wi).biometric_hash = none := by
  refine ⟨?_, ?_, ?_, rfl, fun r5 r6 t3 wi => ⟨rfl, rfl⟩⟩
  · simp [generateUniquenessFactors, hw]
  · simp [generateUniquenessFactors, hw]
  · simp [generateUniquenessFactors, hw]

/-- The concrete wallet used to instantiate `c9_wallet_determinism`. -/
def c9WitnessWallet : WalletInfo :=
  { principal := "wallet-principal-0123456789", accountId := "acct",
    isConnected := true, balance := none }

/-- C9 witness: the amended statement at a concrete wallet. -/
theorem c9_wallet_determinism_witness :
    (generateUniquenessFactors "a" "b" 1 (some c9WitnessWallet)).wallet_entropy
        = (generateUniquenessFactors "c" "d" 2 (some c9WitnessWallet)).wallet_entropy ∧
    (generateUniquenessFactors "a" "b" 1 (some c9WitnessWallet)).wallet_entropy
        = padStart (sliceLast c9WitnessWallet.principal 16) 16 '0' ∧
    (generateUniquenessFactors "a" "b" 1 (some c9WitnessWallet)).wallet_principal
        = some c9WitnessWallet.principal ∧
    (generateUniquenessFactors "a" "b" 1 (some c9WitnessWallet)).wallet_account_id
        = (if c9WitnessWallet.accountId = "" then none
           else some c9WitnessWallet.accountId) ∧
    ∀ (r5 r6 : String) (t3 : Int) (wi : Option WalletInfo),
      (generateUniquenessFactors r5 r6 t3 wi).biometric_opt_in = false ∧
      (generateUniquenessFactors r5 r6 t3 wi).biometric_hash = none :=
  c9_wallet_determinism "a" "b" "c" "d" 1 2 c9WitnessWallet (by decide)

/-! ### Claim C10: generateRandomHex never throws and yields lowercase hex -/

/-- A character is one of the sixteen lowercase hexadecimal digits. -/
def isLowerHexDigit (c : Char) : Prop := c ∈ "0123456789abcdef".data

instance : DecidablePred isLowerHexDigit := fun c =>
  inferInstanceAs (Decidable (c ∈ "0123456789abcdef".data))

/-- The k-th lowercase hexadecimal digit (used only for `k < 16`). -/
def hexDigit (k : Nat) : Char := "0123456789abcdef".data.getD k '0'

/-- JS `b.toString(16).padStart(2, '0')` for a byte `0 ≤ b < 256`: exactly
two lowercase hexadecimal digits (the high digit is `'0'` when `b < 16`,
exactly what `padStart(2, '0')` produces). -/
def byteToHex (b : Nat) : String :=
  String.mk [hexDigit (b / 16), hexDigit (b % 16)]

/-- JS `Array.from(bytes).map(b => b.toString(16).padStart(2, '0')).join('')`:
each byte contributes its two hex characters in order. -/
def bytesToHexString (bs : List Nat) : String :=
  String.mk (bs.flatMap fun b => (byteToHex b).data)

/-- JS index clamping for `substring`: into `[0, length]`. -/
def jsClamp (x len : Int) : Int := min (max x 0) len

/-- JS `s.substring(a, b)`: both indices are clamped into `[0, length]` and
swapped when out of order, then the characters strictly between them are
taken. -/
def jsSubstring (s : String) (a b : Int) : String :=
  String.mk ((s.data.drop
      (min (jsClamp a (s.length : Int)) (jsClamp b (s.length : Int))).toNat).take
    ((max (jsClamp a (s.length : Int)) (jsClamp b (s.length : Int))
      - min (jsClamp a (s.length : Int)) (jsClamp b (s.length : Int))).toNat))

/-- JS `s.padEnd(n, c)` with a one-character pad string: appends copies of
`c` up to length `n`, and returns `s` unchanged when it is already at least
that long (including for negative `n`). -/
def jsPadEnd (s : String) (n : Int) (c : Char) : String :=
  if (s.length : Int) < n then
    s ++ String.mk (List.replicate (n - (s.length : Int)).toNat c)
  else s

/-- The environment `generateRandomHex` draws from: whether
`crypto.getRandomValues` is available, the bytes it fills in (the call asks
for `length / 2` of them), and the string `Math.random().toString(16)`
evaluates to on the fallback path. -/
structure RandomEnvironment where
  cryptoOk : Bool
  cryptoBytes : Nat → List Nat
  mathRandomStr : String

/-- The fallback expression of `generateRandomHex`
(`src/pages/Index.tsx:760`):
`Math.random().toString(16).substring(2, length + 2).padEnd(length, '0')`. -/
def mathRandomFallback (mathRandomStr : String) (n : Int) : String :=
  jsPadEnd (jsSubstring mathRandomStr 2 (n + 2)) n '0'

/-- The `try` body of `generateRandomHex` (`src/pages/Index.tsx:747-756`):
it throws on a non-positive or odd length, throws when the crypto API is
unavailable, and otherwise hex-encodes `length / 2` random bytes. -/
def generateRandomHexBody (env : RandomEnvironment) (n : Int) :
    Except String String :=
  if n ≤ 0 ∨ n % 2 ≠ 0 then
    Except.error "Length must be a positive even number"
  else if env.cryptoOk then
    Except.ok (bytesToHexString (env.cryptoBytes (n.toNat / 2)))
  else Except.error "crypto API unavailable"

/-- Embeds `generateRandomHex` (`src/pages/Index.tsx:746-762`): the `catch` turns
every failure of the body into the `Math.random` fallback, so the function
itself never throws. -/
def generateRandomHex (env : RandomEnvironment) (n : Int) : String :=
  match generateRandomHexBody env n with
  | Except.ok s => s
  | Except.error _ => mathRandomFallback env.mathRandomStr n

theorem hexDigit_is_hex {k : Nat} (hk : k < 16) : isLowerHexDigit (hexDigit k) := by
  have H : ∀ j < 16, isLowerHexDigit (hexDigit j) := by decide
  exact H k hk

theorem bytesToHexString_length (bs : List Nat) :
    (bytesToHexString bs).length = 2 * bs.length := by
  show (bs.flatMap fun b => (byteToHex b).data).length = 2 * bs.length
  induction bs with
  | nil => rfl
  | cons b t ih =>
    rw [List.flatMap_cons, List.length_append, ih, List.length_cons]
    show 2 + 2 * t.length = 2 * (t.length + 1)
    omega

theorem bytesToHexString_hex (bs : List Nat) (hb : ∀ b ∈ bs, b < 256) :
    ∀ c ∈ (bytesToHexString bs).data, isLowerHexDigit c := by
  intro c hc
  have hc2 : c ∈ bs.flatMap fun b => (byteToHex b).data := hc
  obtain ⟨b, hbs, hcb⟩ := List.mem_flatMap.mp hc2
  have hb2 := hb b hbs
  have : c = hexDigit (b / 16) ∨ c = hexDigit (b % 16) := by
    simpa [byteToHex] using hcb
  rcases this with rfl | rfl
  · exact hexDigit_is_hex (by omega)
  · exact hexDigit_is_hex (by omega)

theorem jsPadEnd_spec (s : String) (n : Int) (hs : (s.length : Int) ≤ n) :
    (jsPadEnd s n '0').length = n.toNat ∧
    ∀ c ∈ (jsPadEnd s n '0').data, c ∈ s.data ∨ c = '0' := by
  unfold jsPadEnd
  split_ifs with h
  · constructor
    · rw [String.length_append]
      show s.length + (List.replicate (n - (s.length : Int)).toNat '0').length
          = n.toNat
      rw [List.length_replicate]
      omega
    · intro c hc
      have : c ∈ s.data ++ List.replicate (n - (s.length : Int)).toNat '0' := hc
      rcases List.mem_append.mp this with h1 | h2
      · exact Or.inl h1
      · exact Or.inr (List.eq_of_mem_replicate h2)
  · exact ⟨by omega, fun c hc => Or.inl hc⟩

theorem jsSubstring_le_and_sub (s : String) (n : Int) (hn : 0 < n) :
    ((jsSubstring s 2 (n + 2)).length : Int) ≤ n ∧
    ∀ c ∈ (jsSubstring s 2 (n + 2)).data, c ∈ s.data.drop 2 := by
  have hha : jsClamp 2 (s.length : Int) = min 2 (s.length : Int) := by
    unfold jsClamp; omega
  have hhb : jsClamp (n + 2) (s.length : Int) = min (n + 2) (s.length : Int) := by
    unfold jsClamp; omega
  have hdata : (jsSubstring s 2 (n + 2)).data
      = (s.data.drop
          (min (min 2 (s.length : Int)) (min (n + 2) (s.length : Int))).toNat).take
        ((max (min 2 (s.length : Int)) (min (n + 2) (s.length : Int))
          - min (min 2 (s.length : Int)) (min (n + 2) (s.length : Int))).toNat) := by
    unfold jsSubstring
    rw [hha, hhb]
  constructor
  · have h1 : (jsSubstring s 2 (n + 2)).length
        = ((s.data.drop
            (min (min 2 (s.length : Int)) (min (n + 2) (s.length : Int))).toNat).take
          ((max (min 2 (s.length : Int)) (min (n + 2) (s.length : Int))
            - min (min 2 (s.length : Int)) (min (n + 2) (s.length : Int))).toNat)).length := by
      show (jsSubstring s 2 (n + 2)).data.length = _
      rw [hdata]
    rw [h1]
    have h2 := List.length_take_le
      ((max (min 2 (s.length : Int)) (min (n + 2) (s.length : Int))
        - min (min 2 (s.length : Int)) (min (n + 2) (s.length : Int))).toNat)
      (s.data.drop
        (min (min 2 (s.length : Int)) (min (n + 2) (s.length : Int))).toNat)
    omega
  · intro c hc
    rw [hdata] at hc
    have hmem := List.mem_of_mem_take hc
    by_cases hlen : 2 ≤ (s.length : Int)
    · have hlo : (min (min 2 (s.length : Int)) (min (n + 2) (s.length : Int))).toNat
          = 2 := by omega
      rw [hlo] at hmem
      exact hmem
    · -- the string has fewer than two characters: the substring is empty
      exfalso
      have hz : (max (min 2 (s.length : Int)) (min (n + 2) (s.length : Int))
          - min (min 2 (s.length : Int)) (min (n + 2) (s.length : Int))).toNat
          = 0 := by omega
      rw [hz] at hc
      simp at hc

theorem mathRandomFallback_spec (mrs : String)
    (hM : mrs = "0" ∨ ∃ ds : List Char,
        mrs.data = '0' :: '.' :: ds ∧ ∀ c ∈ ds, isLowerHexDigit c)
    (n : Int) (hn : 0 < n) :
    (mathRandomFallback mrs n).length = n.toNat ∧
    ∀ c ∈ (mathRandomFallback mrs n).data, isLowerHexDigit c := by
  obtain ⟨hle, hsub⟩ := jsSubstring_le_and_sub mrs n hn
  obtain ⟨hlen, hmem⟩ := jsPadEnd_spec (jsSubstring mrs 2 (n + 2)) n hle
  refine ⟨hlen, fun c hc => ?_⟩
  rcases hmem c hc with h1 | rfl
  · have hdrop := hsub c h1
    rcases hM with rfl | ⟨ds, hdata, hds⟩
    · have hnil : List.drop 2 ("0" : String).data = ([] : List Char) := rfl
      rw [hnil] at hdrop
      exact absurd hdrop (List.not_mem_nil c)
    · rw [hdata] at hdrop
      exact hds c hdrop
  · decide

/-- C10: `generateRandomHex` is total — on a non-positive or odd length the
internal throw is caught and the `Math.random` fallback is returned — and
for every positive even length `n` (whether or not the crypto API is
available) the result has exactly `n` characters, each a lowercase
hexadecimal digit. -/
theorem c10_generateRandomHex_safe (env : RandomEnvironment)
    (hB : ∀ k, (env.cryptoBytes k).length = k ∧ ∀ b ∈ env.cryptoBytes k, b < 256)
    (hM : env.mathRandomStr = "0" ∨ ∃ ds : List Char,
        env.mathRandomStr.data = '0' :: '.' :: ds ∧ ∀ c ∈ ds, isLowerHexDigit c)
    (n : Int) :
    (0 < n → n % 2 = 0 →
      (generateRandomHex env n).length = n.toNat ∧
      ∀ c ∈ (generateRandomHex env n).data, isLowerHexDigit c) ∧
    (¬(0 < n ∧ n % 2 = 0) →
      generateRandomHex env n = mathRandomFallback env.mathRandomStr n) := by
  constructor
  · intro hn he
    have hcond : ¬(n ≤ 0 ∨ n % 2 ≠ 0) := by omega
    by_cases hcr : env.cryptoOk
    · have heq : generateRandomHex env n
          = bytesToHexString (env.cryptoBytes (n.toNat / 2)) := by
        unfold generateRandomHex generateRandomHexBody
        rw [if_neg hcond, if_pos hcr]
      rw [heq]
      refine ⟨?_, bytesToHexString_hex _ (hB (n.toNat / 2)).2⟩
      rw [bytesToHexString_length, (hB (n.toNat / 2)).1]
      omega
    · have heq : generateRandomHex env n
          = mathRandomFallback env.mathRandomStr n := by
        unfold generateRandomHex generateRandomHexBody
        rw [if_neg hcond, if_neg hcr]
      rw [heq]
      exact mathRandomFallback_spec env.mathRandomStr hM n hn
  · intro hbad
    have hcond : n ≤ 0 ∨ n % 2 ≠ 0 := by omega
    unfold generateRandomHex generateRandomHexBody
    rw [if_pos hcond]

/-- A concrete well-formed environment: the crypto API present and returning
zero bytes, `Math.random().toString(16)` reading `"0.8a"`. -/
def c10Env : RandomEnvironment :=
  { cryptoOk := true, cryptoBytes := fun k => List.replicate k 0,
    mathRandomStr := "0.8a" }

/-- C10 witness: at length 4 in the concrete environment the result has
exactly 4 characters, all lowercase hex digits. -/
theorem c10_generateRandomHex_safe_witness :
    (generateRandomHex c10Env 4).length = (4 : Int).toNat ∧
    ∀ c ∈ (generateRandomHex c10Env 4).data, isLowerHexDigit c :=
  (c10_generateRandomHex_safe c10Env
    (fun k => ⟨by simp [c10Env], fun b hb => by
      rcases List.eq_of_mem_replicate hb with rfl; decide⟩)
    (Or.inr ⟨['8', 'a'], rfl, by decide⟩) 4).1 (by decide) (by decide)

end Picha
